import Mathlib

/-!
Verification of the keyword resolution and caching subsystem of the ATG
repository (file src/atg/keywords/__init__.py), shallowly embedded in Lean.

Modelling conventions:
* Python floats are modelled as rationals; the resolver never performs float
  arithmetic, it only stores, converts and compares confidence values.
* The Python dict keyword_library is modelled as an association list with
  first-match lookup and in-place overwrite (Python dicts have unique keys,
  so first-match and last-match coincide on every reachable state).
* The Python set unmapped_keywords is modelled as a duplicate-free list.
* Calls into external capabilities are modelled as oracle inputs consumed by
  the resolver: the outcome of the TestGenerator model call, the result of
  json.loads on each content string, the behaviour of float() on strings,
  and whether the filesystem write performed by the save would succeed.
  Python str.strip is modelled by the structural pyStrip below.
* The store file is modelled by the library value it holds (if any); a
  successful save overwrites it with the serialization of the current
  in-memory library.
-/

namespace ATG

/-- Python str.strip with no argument: drop whitespace from both ends.
Implemented structurally over the character list so that concrete witnesses
evaluate inside the kernel. -/
def pyStrip (s : String) : String :=
  ⟨List.reverse (List.dropWhile Char.isWhitespace
    (List.reverse (List.dropWhile Char.isWhitespace s.data)))⟩

/-- Exception classes relevant to the two except clauses of
map_action_to_keyword: ValueError (of which json.JSONDecodeError is a
subclass) is caught by the inner except clause, every other exception kind
by the outer one. -/
inductive PyExc where
  | valueError
  | typeError
deriving DecidableEq, Repr

/-- Values produced by json.loads and consumed by json.dump. -/
inductive Json where
  | null
  | bool (b : Bool)
  | num (q : ℚ)
  | str (s : String)
  | arr (elems : List Json)
  | obj (fields : List (String × Json))

/-- One value of the keyword library dict. Every write performed by the
module stores exactly the two fields keyword and confidence, so the entry is
modelled as this structure. -/
structure KeywordEntry where
  keyword : String
  confidence : ℚ
deriving DecidableEq, Repr

/-- The in-memory keyword_library dict: action phrase to entry. -/
abbrev KeywordLibrary := List (String × KeywordEntry)

/-- Dict lookup, first match. -/
def libLookup (lib : KeywordLibrary) (action : String) : Option KeywordEntry :=
  match lib with
  | [] => none
  | p :: rest => if p.1 = action then some p.2 else libLookup rest action

/-- Dict update: overwrite the binding in place if the key is present,
append it otherwise (Python dict assignment semantics). -/
def libInsert (lib : KeywordLibrary) (action : String) (e : KeywordEntry) :
    KeywordLibrary :=
  match lib with
  | [] => [(action, e)]
  | p :: rest =>
      if p.1 = action then (action, e) :: rest else p :: libInsert rest action e

/-- Python set.add on the unmapped set. -/
def setAdd (s : List String) (a : String) : List String :=
  if a ∈ s then s else s ++ [a]

/-- Python set removal guarded by membership, as in add_feedback. -/
def setRemove (s : List String) (a : String) : List String :=
  s.filter (fun x => x != a)

/-- The mutable state of a KeywordMapper instance, plus the piece of
configuration it reads: min_confidence and whether keyword_library_path is
set to a truthy value. -/
structure KeywordMapper where
  keyword_library : KeywordLibrary
  unmapped_keywords : List String
  min_confidence : ℚ
  library_path_set : Bool
deriving DecidableEq, Repr

/-- Contents of the store file: none when absent, otherwise the library it
serializes. -/
abbrev Store := Option KeywordLibrary

/-- Initialization of min_confidence in KeywordMapper init:
self.config.get with key min_confidence and default 0.8. -/
def min_confidence_init (configured : Option ℚ) : ℚ :=
  configured.getD 0.8

/-- Embedding of KeywordMapper save_keyword_library: returns False without
touching the file when the path is unset; otherwise overwrites the file with
the whole current library, returning False (and logging) if the write
raises. The success of the underlying write is the oracle input ioOk. -/
def save_keyword_library (m : KeywordMapper) (store : Store) (ioOk : Bool) :
    Bool × Store :=
  if m.library_path_set then
    if ioOk then (true, some m.keyword_library) else (false, store)
  else (false, store)

/-- A content string returned by the model, together with the result of
json.loads on it (none models json.JSONDecodeError). -/
structure ContentBlock where
  raw : String
  decoded : Option Json

/-- One element of the response list of TestGenerator.generate_test_cases:
either a dict carrying a content key, or anything else. -/
inductive RespItem where
  | noContent
  | content (cb : ContentBlock)

/-- Outcome of the model call: the call raises, or returns a value; none
models a falsy or non-list return value (the empty list is also handled by
the same guard and is modelled by some of the empty list). -/
inductive ModelOutcome where
  | raises
  | returns (response : Option (List RespItem))

/-- Oracle inputs consumed during one resolver call. strFloat is the
behaviour of the Python float() builtin on strings (none models a
ValueError). -/
structure Env where
  strFloat : String → Option ℚ
  outcome : ModelOutcome
  saveIoOk : Bool

/-- Python float() applied to a decoded JSON value. Raises TypeError on
values without a float conversion, ValueError on unparseable strings. -/
def pyFloat (strFloat : String → Option ℚ) : Json → Except PyExc ℚ
  | .num q => .ok q
  | .bool b => .ok (if b then 1 else 0)
  | .str s =>
      match strFloat s with
      | some q => .ok q
      | none => .error .valueError
  | .null => .error .typeError
  | .arr _ => .error .typeError
  | .obj _ => .error .typeError

/-- Lookup in a decoded JSON object. -/
def jLookup (fields : List (String × Json)) (key : String) : Option Json :=
  match fields with
  | [] => none
  | p :: rest => if p.1 = key then some p.2 else jLookup rest key

/-- The shape check of the structured branch: isinstance of dict, with both
a keyword and a confidence key; returns the two looked-up values. -/
def structuredFields (j : Json) : Option (Json × Json) :=
  match j with
  | .obj fields =>
      match jLookup fields "keyword", jLookup fields "confidence" with
      | some jk, some jc => some (jk, jc)
      | _, _ => none
  | _ => none

/-- The f-string prompt of map_action_to_keyword. The local
library_keywords, computed from the library keys, is bound exactly as in
the source - where it is never interpolated into the prompt. -/
def buildPrompt (m : KeywordMapper) (action : String) : String :=
  let library_keywords := m.keyword_library.map Prod.fst
  "\n            You are a Robot Framework test case generator.\n            Given the action: \"" ++ action ++ "\"\n            Suggest the most appropriate Robot Framework keyword.\n            Return a JSON object with the following structure:\n            \x7b\"keyword\": \"KeywordName\", \"confidence\": 0.0 to 1.0\x7d\n            "

/-- Everything observable about one map_action_to_keyword call: the returned
pair, the post-state of the mapper, the post-state of the store file,
whether the model capability was invoked, the prompt sent to it (if any),
and whether a warning was printed during the call. -/
structure ResolveOut where
  result : Option String × ℚ
  mapper : KeywordMapper
  store : Store
  modelCalled : Bool
  promptSent : Option String
  warned : Bool

/-- Body of the outer except clause of map_action_to_keyword: add the action
to the unmapped set, print a warning, return the failure pair. -/
def resolveFailure (m : KeywordMapper) (store : Store) (action prompt : String) :
    ResolveOut :=
  ⟨(none, 0), { m with unmapped_keywords := setAdd m.unmapped_keywords action },
    store, true, some prompt, true⟩

/-- Body of the inner except clause of map_action_to_keyword: take the whole
stripped raw content as the keyword with the default confidence 0.8, store
it, save, and report failure (with a warning) exactly when the save fails. -/
def rawFallbackResolve (env : Env) (m : KeywordMapper) (store : Store)
    (action prompt raw : String) : ResolveOut :=
  let suggested := pyStrip raw
  let m2 := { m with
    keyword_library := libInsert m.keyword_library action ⟨suggested, 0.8⟩ }
  let saved := save_keyword_library m2 store env.saveIoOk
  if saved.1 then ⟨(some suggested, 0.8), m2, saved.2, true, some prompt, false⟩
  else ⟨(none, 0), m2, saved.2, true, some prompt, true⟩

/-- Body of the structured-success branch of map_action_to_keyword: strip
the keyword string, store it with the converted confidence, save, and
report failure (with a warning) exactly when the save fails. -/
def structuredResolve (env : Env) (m : KeywordMapper) (store : Store)
    (action prompt s : String) (confidence : ℚ) : ResolveOut :=
  let suggested := pyStrip s
  let newlib := libInsert m.keyword_library action ⟨suggested, confidence⟩
  let m2 := { m with keyword_library := newlib }
  let saved := save_keyword_library m2 store env.saveIoOk
  if saved.1 then ⟨(some suggested, confidence), m2, saved.2, true, some prompt, false⟩
  else ⟨(none, 0), m2, saved.2, true, some prompt, true⟩

/-- Embedding of KeywordMapper.map_action_to_keyword. The failure of the
mkdir performed before the save is not modelled (its exception would escape
the save and land in the outer except clause, like any other uncaught
error). -/
def map_action_to_keyword (env : Env) (m : KeywordMapper) (store : Store)
    (action : String) : ResolveOut :=
  match libLookup m.keyword_library action with
  | some entry => ⟨(some entry.keyword, entry.confidence), m, store, false, none, false⟩
  | none =>
      let prompt := buildPrompt m action
      match env.outcome with
      | .raises => resolveFailure m store action prompt
      | .returns response =>
          match response with
          | some (.content cb :: _) =>
              match cb.decoded with
              | some result =>
                  match structuredFields result with
                  | some (jk, jc) =>
                      match jk with
                      | .str s =>
                          match pyFloat env.strFloat jc with
                          | .ok confidence =>
                              structuredResolve env m store action prompt s confidence
                          | .error .valueError =>
                              rawFallbackResolve env m store action prompt cb.raw
                          | .error .typeError =>
                              resolveFailure m store action prompt
                      | _ => resolveFailure m store action prompt
                  | none => ⟨(none, 0), m, store, true, some prompt, false⟩
              | none => rawFallbackResolve env m store action prompt cb.raw
          | _ => ⟨(none, 0), m, store, true, some prompt, false⟩

/-- Embedding of KeywordMapper.get_unmapped_keywords. -/
def get_unmapped_keywords (m : KeywordMapper) : List String :=
  m.unmapped_keywords

/-- Embedding of KeywordMapper.add_feedback: overwrite the entry, save
(ignoring the result), drop the action from the unmapped set if present.
Returns the new mapper, the new store and the ignored save result. -/
def add_feedback (m : KeywordMapper) (store : Store) (ioOk : Bool)
    (action keyword : String) (confidence : ℚ) :
    KeywordMapper × Store × Bool :=
  let m2 := { m with
    keyword_library := libInsert m.keyword_library action ⟨keyword, confidence⟩ }
  let saved := save_keyword_library m2 store ioOk
  let m3 := { m2 with unmapped_keywords := setRemove m2.unmapped_keywords action }
  (m3, saved.2, saved.1)

/-- Embedding of KeywordMapper.generate_test_case: resolve, then emit the
indented keyword exactly when the keyword is truthy and the confidence
reaches min_confidence. Returns the line and the resolver output. -/
def generate_test_case (env : Env) (m : KeywordMapper) (store : Store)
    (action : String) : String × ResolveOut :=
  let r := map_action_to_keyword env m store action
  match r.result with
  | (some keyword, confidence) =>
      (if keyword ≠ "" ∧ confidence ≥ r.mapper.min_confidence
       then "    " ++ keyword else "", r)
  | (none, _) => ("", r)

/-- Embedding of KeywordMapper load_keyword_library over the raw decoded
JSON value of the store file: file is none when the file does not exist,
some error when opening or json.load raises, some ok j when it decodes to
the JSON value j. Returns the resulting raw library value and whether a
warning was printed. -/
def load_keyword_library (library_path_set : Bool)
    (file : Option (Except Unit Json)) : Json × Bool :=
  if library_path_set then
    match file with
    | some (.ok parsed) => (parsed, false)
    | some (.error _) => (.obj [], true)
    | none => (.obj [], false)
  else (.obj [], false)

/-- Specification-side classifier: the pair that a successful interpretation
of a content block yields - through the structured branch when the block
decodes to an object with both fields, a string keyword and a convertible
confidence, through the raw-text fallback when json.loads or float raise a
ValueError; none when the resolver neither stores nor returns a pair for
this block. -/
def interpOutcome (strFloat : String → Option ℚ) (cb : ContentBlock) :
    Option (String × ℚ) :=
  match cb.decoded with
  | some result =>
      match structuredFields result with
      | some (jk, jc) =>
          match jk with
          | .str s =>
              match pyFloat strFloat jc with
              | .ok c => some (pyStrip s, c)
              | .error .valueError => some (pyStrip cb.raw, 0.8)
              | .error .typeError => none
          | _ => none
      | none => none
  | none => some (pyStrip cb.raw, 0.8)

/-- Lookup after overwrite finds the new entry. -/
theorem libLookup_libInsert_self (lib : KeywordLibrary) (a : String)
    (e : KeywordEntry) : libLookup (libInsert lib a e) a = some e := by
  induction lib with
  | nil => simp [libInsert, libLookup]
  | cons p rest ih =>
      by_cases h : p.1 = a
      · simp [libInsert, libLookup, h]
      · simp [libInsert, libLookup, h, ih]

/-- Adding an element to the set makes it a member. -/
theorem mem_setAdd_self (s : List String) (a : String) : a ∈ setAdd s a := by
  unfold setAdd
  split
  · assumption
  · simp

/-- Removing an element from the set removes every occurrence. -/
theorem not_mem_setRemove_self (s : List String) (a : String) :
    a ∉ setRemove s a := by
  simp [setRemove]

/-- The save reports failure and leaves the file alone when the path is
unset or the write fails. -/
theorem save_keyword_library_fails (m : KeywordMapper) (store : Store)
    (ioOk : Bool) (h : m.library_path_set = false ∨ ioOk = false) :
    save_keyword_library m store ioOk = (false, store) := by
  unfold save_keyword_library
  rcases h with h | h
  · rw [h]; rfl
  · rw [h]; cases h2 : m.library_path_set <;> rfl

/-- The save succeeds and overwrites the file when the path is set and the
write succeeds. -/
theorem save_keyword_library_succeeds (m : KeywordMapper) (store : Store)
    (ioOk : Bool) (hpath : m.library_path_set = true) (hio : ioOk = true) :
    save_keyword_library m store ioOk = (true, some m.keyword_library) := by
  unfold save_keyword_library
  rw [hpath, hio]
  rfl

/-- Raw fallback under a failing save: failure pair, warning, but the
library keeps the new entry and the file is untouched. -/
theorem rawFallbackResolve_save_failure (env : Env) (m : KeywordMapper)
    (store : Store) (action prompt raw : String)
    (hsave : m.library_path_set = false ∨ env.saveIoOk = false) :
    rawFallbackResolve env m store action prompt raw =
      ⟨(none, 0),
        { m with keyword_library :=
            libInsert m.keyword_library action ⟨pyStrip raw, 0.8⟩ },
        store, true, some prompt, true⟩ := by
  simp only [rawFallbackResolve]
  rw [save_keyword_library_fails
    { m with keyword_library := libInsert m.keyword_library action ⟨pyStrip raw, 0.8⟩ }
    store env.saveIoOk hsave]
  rfl

/-- Raw fallback under a successful save: the stripped raw content with
confidence 0.8 is returned, stored in the library, and persisted. -/
theorem rawFallbackResolve_save_success (env : Env) (m : KeywordMapper)
    (store : Store) (action prompt raw : String)
    (hpath : m.library_path_set = true) (hio : env.saveIoOk = true) :
    rawFallbackResolve env m store action prompt raw =
      ⟨(some (pyStrip raw), 0.8),
        { m with keyword_library :=
            libInsert m.keyword_library action ⟨pyStrip raw, 0.8⟩ },
        some (libInsert m.keyword_library action ⟨pyStrip raw, 0.8⟩),
        true, some prompt, false⟩ := by
  simp only [rawFallbackResolve]
  rw [save_keyword_library_succeeds
    { m with keyword_library := libInsert m.keyword_library action ⟨pyStrip raw, 0.8⟩ }
    store env.saveIoOk hpath hio]
  rfl

/-- Structured branch under a failing save: failure pair, warning, but the
library keeps the new entry and the file is untouched. -/
theorem structuredResolve_save_failure (env : Env) (m : KeywordMapper)
    (store : Store) (action prompt s : String) (confidence : ℚ)
    (hsave : m.library_path_set = false ∨ env.saveIoOk = false) :
    structuredResolve env m store action prompt s confidence =
      ⟨(none, 0),
        { m with keyword_library :=
            libInsert m.keyword_library action ⟨pyStrip s, confidence⟩ },
        store, true, some prompt, true⟩ := by
  simp only [structuredResolve]
  rw [save_keyword_library_fails
    { m with keyword_library := libInsert m.keyword_library action ⟨pyStrip s, confidence⟩ }
    store env.saveIoOk hsave]
  rfl

/-- Structured branch under a successful save: the stripped keyword and its
converted confidence are returned, stored, and persisted. -/
theorem structuredResolve_save_success (env : Env) (m : KeywordMapper)
    (store : Store) (action prompt s : String) (confidence : ℚ)
    (hpath : m.library_path_set = true) (hio : env.saveIoOk = true) :
    structuredResolve env m store action prompt s confidence =
      ⟨(some (pyStrip s), confidence),
        { m with keyword_library :=
            libInsert m.keyword_library action ⟨pyStrip s, confidence⟩ },
        some (libInsert m.keyword_library action ⟨pyStrip s, confidence⟩),
        true, some prompt, false⟩ := by
  simp only [structuredResolve]
  rw [save_keyword_library_succeeds
    { m with keyword_library := libInsert m.keyword_library action ⟨pyStrip s, confidence⟩ }
    store env.saveIoOk hpath hio]
  rfl

/-- C2: when the action is an exact key of the in-memory library,
map_action_to_keyword returns the stored pair, performs no model call,
and leaves the mapper (library and unmapped set) and the store file
unchanged. -/
theorem map_action_cache_hit (env : Env) (m : KeywordMapper) (store : Store)
    (action : String) (e : KeywordEntry)
    (h : libLookup m.keyword_library action = some e) :
    map_action_to_keyword env m store action =
      ⟨(some e.keyword, e.confidence), m, store, false, none, false⟩ := by
  unfold map_action_to_keyword
  rw [h]

def c2lib : KeywordLibrary := [("click button", ⟨"Click Button", 1⟩)]

def c2m : KeywordMapper := ⟨c2lib, [], mkRat 4 5, true⟩

def c2env : Env := ⟨fun _ => none, .raises, true⟩

/-- C2 witness: loading the store of the spec example and resolving the
cached action returns the stored pair with no model call and no state
change. -/
theorem map_action_cache_hit_witness :
    map_action_to_keyword c2env c2m (some c2lib) "click button" =
      ⟨(some "Click Button", 1), c2m, some c2lib, false, none, false⟩ :=
  map_action_cache_hit c2env c2m (some c2lib) "click button"
    ⟨"Click Button", 1⟩ rfl

/-- C4: when the action is a cache miss and the capability call raises,
map_action_to_keyword returns the failure pair, records the action in the
unmapped set (visible through get_unmapped_keywords) and logs a warning;
the embedding is a total function, so no exception escapes. -/
theorem map_action_model_error (env : Env) (m : KeywordMapper) (store : Store)
    (action : String)
    (hmiss : libLookup m.keyword_library action = none)
    (hraise : env.outcome = .raises) :
    (map_action_to_keyword env m store action).result = (none, 0) ∧
    action ∈ get_unmapped_keywords (map_action_to_keyword env m store action).mapper ∧
    (map_action_to_keyword env m store action).warned = true := by
  unfold map_action_to_keyword
  rw [hmiss, hraise]
  exact ⟨rfl, mem_setAdd_self _ _, rfl⟩

def c4env : Env := ⟨fun _ => none, .raises, true⟩

def c4m : KeywordMapper := ⟨[], [], mkRat 4 5, true⟩

/-- C4 witness: a concrete failing model call on an unknown action. -/
theorem map_action_model_error_witness :
    (map_action_to_keyword c4env c4m none "zoom page").result = (none, 0) ∧
    "zoom page" ∈ get_unmapped_keywords
      (map_action_to_keyword c4env c4m none "zoom page").mapper ∧
    (map_action_to_keyword c4env c4m none "zoom page").warned = true :=
  map_action_model_error c4env c4m none "zoom page" rfl rfl

/-- C8 counterexample: a store file holding valid JSON of the wrong shape
(a two-element array) is not treated as corruption: the load accepts the
array as the library verbatim and prints no warning, instead of returning
an empty library with a warning as the claim states. -/
theorem load_wrong_shape_counterexample :
    load_keyword_library true (some (.ok (.arr [.num 1, .num 2])))
      = (.arr [.num 1, .num 2], false) := rfl

/-- C8 amended: the load never raises (it is total); a file that is
unreadable or fails JSON decoding yields a warning and an empty library;
but a file that decodes to ANY JSON value - of whatever shape - is
accepted as the library verbatim, with no shape validation and no
warning; an absent file or an unset path yields an empty library
silently. -/
theorem load_error_handling :
    (∀ j : Json, load_keyword_library true (some (.ok j)) = (j, false)) ∧
    (∀ e : Unit, load_keyword_library true (some (.error e)) = (.obj [], true)) ∧
    load_keyword_library true none = (.obj [], false) ∧
    (∀ f, load_keyword_library false f = (.obj [], false)) :=
  ⟨fun _ => rfl, fun _ => rfl, rfl, fun _ => rfl⟩

/-- C9: the prompt sent on a cache miss is independent of the keyword
library - the local library_keywords binding is dead code - so the list of
already-known keyword names is NOT embedded in the prompt; the prompt
embeds exactly the action phrase between two fixed literals. -/
theorem prompt_independent_of_library :
    (∀ (m₁ m₂ : KeywordMapper) (action : String),
        buildPrompt m₁ action = buildPrompt m₂ action) ∧
    (∀ (m : KeywordMapper) (action : String),
        buildPrompt m action =
          "\n            You are a Robot Framework test case generator.\n            Given the action: \"" ++ action ++ "\"\n            Suggest the most appropriate Robot Framework keyword.\n            Return a JSON object with the following structure:\n            \x7b\"keyword\": \"KeywordName\", \"confidence\": 0.0 to 1.0\x7d\n            ") :=
  ⟨fun _ _ _ => rfl, fun _ _ => rfl⟩

/-- C1: on a cache miss whose content block is successfully interpreted
(either through the structured branch or through the raw-text fallback,
as classified by interpOutcome), a failing save makes map_action_to_keyword
report failure with the pair none and 0.0, even though the in-memory
library already holds the new entry for the action. -/
theorem map_action_save_failure_keeps_memory_entry
    (env : Env) (m : KeywordMapper) (store : Store) (action : String)
    (cb : ContentBlock) (rest : List RespItem) (k : String) (c : ℚ)
    (hmiss : libLookup m.keyword_library action = none)
    (hout : env.outcome = .returns (some (.content cb :: rest)))
    (hint : interpOutcome env.strFloat cb = some (k, c))
    (hsave : m.library_path_set = false ∨ env.saveIoOk = false) :
    (map_action_to_keyword env m store action).result = (none, 0) ∧
    libLookup (map_action_to_keyword env m store action).mapper.keyword_library action
      = some ⟨k, c⟩ := by
  unfold map_action_to_keyword
  rw [hmiss, hout]
  dsimp only []
  rcases hdec : cb.decoded with _ | j
  · dsimp only []
    rw [rawFallbackResolve_save_failure env m store action (buildPrompt m action) cb.raw hsave]
    simp only [interpOutcome, hdec, Option.some.injEq, Prod.mk.injEq] at hint
    obtain ⟨hk, hc⟩ := hint
    subst hk
    subst hc
    exact ⟨rfl, libLookup_libInsert_self _ _ _⟩
  · dsimp only []
    rcases hsf : structuredFields j with _ | ⟨jk, jc⟩
    · simp only [interpOutcome, hdec, hsf] at hint
      exact Option.noConfusion hint
    · try dsimp only []
      cases jk with
      | str s =>
          try dsimp only []
          rcases hpf : pyFloat env.strFloat jc with e | c2
          · cases e with
            | valueError =>
                try dsimp only []
                rw [rawFallbackResolve_save_failure env m store action (buildPrompt m action) cb.raw hsave]
                simp only [interpOutcome, hdec, hsf, hpf, Option.some.injEq, Prod.mk.injEq] at hint
                obtain ⟨hk, hc⟩ := hint
                subst hk
                subst hc
                exact ⟨rfl, libLookup_libInsert_self _ _ _⟩
            | typeError =>
                simp only [interpOutcome, hdec, hsf, hpf] at hint
                exact Option.noConfusion hint
          · try dsimp only []
            rw [structuredResolve_save_failure env m store action (buildPrompt m action) s c2 hsave]
            simp only [interpOutcome, hdec, hsf, hpf, Option.some.injEq, Prod.mk.injEq] at hint
            obtain ⟨hk, hc⟩ := hint
            subst hk
            subst hc
            exact ⟨rfl, libLookup_libInsert_self _ _ _⟩
      | null =>
          simp only [interpOutcome, hdec, hsf] at hint
          exact Option.noConfusion hint
      | bool b =>
          simp only [interpOutcome, hdec, hsf] at hint
          exact Option.noConfusion hint
      | num q =>
          simp only [interpOutcome, hdec, hsf] at hint
          exact Option.noConfusion hint
      | arr xs =>
          simp only [interpOutcome, hdec, hsf] at hint
          exact Option.noConfusion hint
      | obj fs =>
          simp only [interpOutcome, hdec, hsf] at hint
          exact Option.noConfusion hint

def c1cb : ContentBlock :=
  ⟨"raw text", some (.obj [("keyword", .str "Click Button"), ("confidence", .num 1)])⟩

def c1env : Env := ⟨fun _ => none, .returns (some [.content c1cb]), false⟩

def c1m : KeywordMapper := ⟨[], [], mkRat 4 5, true⟩

/-- C1 witness: a structured response whose save fails: failure is
reported, yet the library holds the entry. -/
theorem map_action_save_failure_keeps_memory_entry_witness :
    (map_action_to_keyword c1env c1m none "press submit").result = (none, 0) ∧
    libLookup (map_action_to_keyword c1env c1m none "press submit").mapper.keyword_library
      "press submit" = some ⟨"Click Button", 1⟩ :=
  map_action_save_failure_keeps_memory_entry c1env c1m none "press submit"
    c1cb [] "Click Button" 1 rfl rfl rfl (Or.inr rfl)

/-- C3: on a cache miss whose non-empty content fails JSON decoding, the
resolver takes the whole stripped raw content as the keyword with
confidence exactly 0.8, stores that entry in the library, and, the save
succeeding, returns it and persists the library. -/
theorem map_action_raw_text_fallback
    (env : Env) (m : KeywordMapper) (store : Store) (action : String)
    (cb : ContentBlock) (rest : List RespItem)
    (hmiss : libLookup m.keyword_library action = none)
    (hout : env.outcome = .returns (some (.content cb :: rest)))
    (hdec : cb.decoded = none)
    (hne : cb.raw ≠ "")
    (hpath : m.library_path_set = true) (hio : env.saveIoOk = true) :
    (map_action_to_keyword env m store action).result = (some (pyStrip cb.raw), 0.8) ∧
    libLookup (map_action_to_keyword env m store action).mapper.keyword_library action
      = some ⟨pyStrip cb.raw, 0.8⟩ ∧
    (map_action_to_keyword env m store action).store
      = some (map_action_to_keyword env m store action).mapper.keyword_library := by
  unfold map_action_to_keyword
  rw [hmiss, hout]
  dsimp only []
  rw [hdec,
    rawFallbackResolve_save_success env m store action (buildPrompt m action) cb.raw hpath hio]
  exact ⟨rfl, libLookup_libInsert_self _ _ _, rfl⟩

def c3cb : ContentBlock := ⟨"Click Submit Button", none⟩

def c3env : Env := ⟨fun _ => none, .returns (some [.content c3cb]), true⟩

def c3m : KeywordMapper := ⟨[], [], mkRat 4 5, true⟩

/-- C3 witness: the spec example, a non-JSON text response accepted as the
keyword with confidence 0.8. -/
theorem map_action_raw_text_fallback_witness :
    (map_action_to_keyword c3env c3m none "press the submit button").result
      = (some "Click Submit Button", 0.8) ∧
    libLookup (map_action_to_keyword c3env c3m none "press the submit button").mapper.keyword_library
      "press the submit button" = some ⟨"Click Submit Button", 0.8⟩ ∧
    (map_action_to_keyword c3env c3m none "press the submit button").store
      = some (map_action_to_keyword c3env c3m none "press the submit button").mapper.keyword_library :=
  map_action_raw_text_fallback c3env c3m none "press the submit button"
    c3cb [] rfl rfl rfl (by decide) rfl rfl

def c5m : KeywordMapper := ⟨[], [], mkRat 4 5, true⟩

def c5envA : Env := ⟨fun _ => none, .returns (some [.content ⟨"", none⟩]), true⟩

def c5envB : Env := ⟨fun _ => none, .returns (some []), true⟩

/-- C5 counterexample: with an empty first content block the resolver does
NOT fail: it returns the empty string with confidence 0.8, writes the
entry with empty keyword into the library, adds nothing to the unmapped
set and logs no warning; and with a response carrying no usable content
(an empty response list) it returns the failure pair but again adds
nothing to the unmapped set and logs no warning. -/
theorem empty_content_counterexample :
    (map_action_to_keyword c5envA c5m none "wait").result = (some "", 0.8) ∧
    libLookup (map_action_to_keyword c5envA c5m none "wait").mapper.keyword_library "wait"
      = some ⟨"", 0.8⟩ ∧
    (map_action_to_keyword c5envA c5m none "wait").mapper.unmapped_keywords = [] ∧
    (map_action_to_keyword c5envA c5m none "wait").warned = false ∧
    (map_action_to_keyword c5envB c5m none "wait").result = (none, 0) ∧
    (map_action_to_keyword c5envB c5m none "wait").mapper.unmapped_keywords = [] ∧
    (map_action_to_keyword c5envB c5m none "wait").warned = false :=
  ⟨rfl, rfl, rfl, rfl, rfl, rfl, rfl⟩

/-- C5 amended: an empty first content block is handled by the raw-text
fallback - the entry with empty keyword and confidence 0.8 is stored and,
the save succeeding, returned - while a response with no usable content
(falsy or empty response list, or a first item without a content field)
yields the failure pair with no unmapped-set addition, no warning and no
library write. -/
theorem empty_or_unusable_content_behaviour
    (env : Env) (m : KeywordMapper) (store : Store) (action : String)
    (rest : List RespItem) :
    (libLookup m.keyword_library action = none →
      env.outcome = .returns (some (.content ⟨"", none⟩ :: rest)) →
      m.library_path_set = true → env.saveIoOk = true →
      (map_action_to_keyword env m store action).result = (some "", 0.8) ∧
      libLookup (map_action_to_keyword env m store action).mapper.keyword_library action
        = some ⟨"", 0.8⟩ ∧
      (map_action_to_keyword env m store action).mapper.unmapped_keywords
        = m.unmapped_keywords ∧
      (map_action_to_keyword env m store action).warned = false) ∧
    (libLookup m.keyword_library action = none →
      (env.outcome = .returns none ∨ env.outcome = .returns (some []) ∨
        env.outcome = .returns (some (.noContent :: rest))) →
      (map_action_to_keyword env m store action).result = (none, 0) ∧
      (map_action_to_keyword env m store action).mapper = m ∧
      (map_action_to_keyword env m store action).store = store ∧
      (map_action_to_keyword env m store action).warned = false) := by
  constructor
  · intro hmiss hout hpath hio
    unfold map_action_to_keyword
    rw [hmiss, hout]
    dsimp only []
    rw [rawFallbackResolve_save_success env m store action (buildPrompt m action) "" hpath hio]
    exact ⟨rfl, libLookup_libInsert_self _ _ _, rfl, rfl⟩
  · intro hmiss hout
    unfold map_action_to_keyword
    rw [hmiss]
    dsimp only []
    rcases hout with h | h | h <;> rw [h] <;> exact ⟨rfl, rfl, rfl, rfl⟩

/-- C5 amended witness: the empty content block at a concrete state. -/
theorem empty_or_unusable_content_behaviour_witness :
    (map_action_to_keyword c5envA c5m none "wait briefly").result = (some "", 0.8) :=
  ((empty_or_unusable_content_behaviour c5envA c5m none "wait briefly" []).1
    rfl rfl rfl rfl).1

/-- C6: generate_test_case emits the keyword behind four spaces of
indentation exactly when resolution yields a keyword (a non-empty one)
whose confidence reaches min_confidence, returns the empty string when the
confidence falls below the threshold, and the threshold defaults to 0.8
when the configuration does not set it. -/
theorem generate_test_case_confidence_gate (env : Env) (m : KeywordMapper)
    (store : Store) (action : String) :
    (∀ k c, (map_action_to_keyword env m store action).result = (some k, c) →
        k ≠ "" → c ≥ (map_action_to_keyword env m store action).mapper.min_confidence →
        (generate_test_case env m store action).1 = "    " ++ k) ∧
    (∀ k c, (map_action_to_keyword env m store action).result = (some k, c) →
        c < (map_action_to_keyword env m store action).mapper.min_confidence →
        (generate_test_case env m store action).1 = "") ∧
    ((generate_test_case env m store action).1 ≠ "" →
        ∃ k c, (map_action_to_keyword env m store action).result = (some k, c) ∧
          k ≠ "" ∧ c ≥ (map_action_to_keyword env m store action).mapper.min_confidence) ∧
    min_confidence_init none = 0.8 := by
  refine ⟨?_, ?_, ?_, rfl⟩
  · intro k c hres hk hc
    unfold generate_test_case
    dsimp only []
    rw [hres]
    dsimp only []
    rw [if_pos ⟨hk, hc⟩]
  · intro k c hres hc
    unfold generate_test_case
    dsimp only []
    rw [hres]
    dsimp only []
    rw [if_neg fun hP => absurd hP.2 (not_le.mpr hc)]
  · intro hne
    unfold generate_test_case at hne
    dsimp only [] at hne
    rcases hres : (map_action_to_keyword env m store action).result with ⟨ko, c⟩
    rw [hres] at hne
    cases ko with
    | none =>
        dsimp only [] at hne
        exact absurd rfl hne
    | some k =>
        dsimp only [] at hne
        by_cases hP : k ≠ "" ∧ c ≥ (map_action_to_keyword env m store action).mapper.min_confidence
        · exact ⟨k, c, rfl, hP.1, hP.2⟩
        · rw [if_neg hP] at hne
          exact absurd rfl hne

def c6m : KeywordMapper :=
  ⟨[("click button", ⟨"Click Button", 1⟩)], [], mkRat 9 10, true⟩

def c6env : Env := ⟨fun _ => none, .raises, true⟩

/-- C6 witness: a cached entry above the threshold yields the indented
keyword line. -/
theorem generate_test_case_confidence_gate_witness :
    (generate_test_case c6env c6m none "click button").1 = "    Click Button" :=
  (generate_test_case_confidence_gate c6env c6m none "click button").1
    "Click Button" 1 rfl (by decide) (by decide)

/-- C7: add_feedback unconditionally overwrites or creates the library
entry for the action, attempts persistence (the file is overwritten
exactly when the path is set and the write succeeds, the failure being
swallowed otherwise), removes the action from the unmapped set, never
fails outward (the embedding is total for every ioOk), and afterwards
map_action_to_keyword on the same action returns exactly the fed-back
pair with no model call. -/
theorem add_feedback_spec (m : KeywordMapper) (store : Store) (ioOk : Bool)
    (action keyword : String) (confidence : ℚ) :
    libLookup (add_feedback m store ioOk action keyword confidence).1.keyword_library action
      = some ⟨keyword, confidence⟩ ∧
    action ∉ get_unmapped_keywords (add_feedback m store ioOk action keyword confidence).1 ∧
    (add_feedback m store ioOk action keyword confidence).2.2
      = (m.library_path_set && ioOk) ∧
    (add_feedback m store ioOk action keyword confidence).2.1
      = (if m.library_path_set && ioOk
         then some (add_feedback m store ioOk action keyword confidence).1.keyword_library
         else store) ∧
    (∀ (env2 : Env) (store2 : Store),
      (map_action_to_keyword env2 (add_feedback m store ioOk action keyword confidence).1
        store2 action).result = (some keyword, confidence) ∧
      (map_action_to_keyword env2 (add_feedback m store ioOk action keyword confidence).1
        store2 action).modelCalled = false) := by
  refine ⟨libLookup_libInsert_self _ _ _, not_mem_setRemove_self _ _, ?_, ?_, ?_⟩
  · unfold add_feedback save_keyword_library
    cases hp : m.library_path_set <;> cases hi : ioOk <;> simp [hp, hi]
  · unfold add_feedback save_keyword_library
    cases hp : m.library_path_set <;> cases hi : ioOk <;> simp [hp, hi]
  · intro env2 store2
    unfold map_action_to_keyword
    rw [show libLookup (add_feedback m store ioOk action keyword confidence).1.keyword_library
          action = some ⟨keyword, confidence⟩ from libLookup_libInsert_self _ _ _]
    exact ⟨rfl, rfl⟩

def c7m : KeywordMapper := ⟨[], ["select dropdown"], mkRat 4 5, true⟩

/-- C7 witness: the spec example, feedback on a previously unmapped action
creates the entry and clears the unmapped set. -/
theorem add_feedback_spec_witness :
    libLookup (add_feedback c7m none true "select dropdown" "Select From List"
        (mkRat 19 20)).1.keyword_library "select dropdown"
      = some ⟨"Select From List", mkRat 19 20⟩ ∧
    "select dropdown" ∉ get_unmapped_keywords
      (add_feedback c7m none true "select dropdown" "Select From List"
        (mkRat 19 20)).1 :=
  ⟨(add_feedback_spec c7m none true "select dropdown" "Select From List"
      (mkRat 19 20)).1,
   (add_feedback_spec c7m none true "select dropdown" "Select From List"
      (mkRat 19 20)).2.1⟩

/-- C10: when resolution yields no keyword or the empty-string keyword,
generate_test_case returns the empty string whatever the confidence, so
empty keywords never reach generated output. -/
theorem generate_test_case_empty_keyword (env : Env) (m : KeywordMapper)
    (store : Store) (action : String) (c : ℚ) :
    ((map_action_to_keyword env m store action).result = (none, c) →
      (generate_test_case env m store action).1 = "") ∧
    ((map_action_to_keyword env m store action).result = (some "", c) →
      (generate_test_case env m store action).1 = "") := by
  constructor
  · intro h
    unfold generate_test_case
    dsimp only []
    rw [h]
  · intro h
    unfold generate_test_case
    dsimp only []
    rw [h]
    dsimp only []
    rw [if_neg fun hP => hP.1 rfl]

def c10m : KeywordMapper := ⟨[("open menu", ⟨"", 1⟩)], [], mkRat 4 5, true⟩

def c10env : Env := ⟨fun _ => none, .raises, true⟩

/-- C10 witness: a cached entry with the empty keyword and confidence 1.0
produces the empty line despite the confidence meeting the threshold. -/
theorem generate_test_case_empty_keyword_witness :
    (generate_test_case c10env c10m none "open menu").1 = "" :=
  (generate_test_case_empty_keyword c10env c10m none "open menu" 1).2 rfl

end ATG
